import Mathlib

/-!
Verification development for the ccda2omop rule-driven C-CDA → OMOP mapping
engine.  The Lean definitions below are shallow embeddings of the Python
sources:

* `src/ccda2omop/omop/ids.py`            — deterministic ID generation,
* `src/ccda2omop/mapper/vocab_loader.py` — OMOP vocabulary index,
* `src/ccda2omop/mapper/vocabulary.py`   — code-system resolution and mapper,
* `src/ccda2omop/mapper/extractor.py`    — XPath-based entry extraction,
* `src/ccda2omop/ccda/hl7_time.py`       — HL7 timestamp parsing,
* `src/ccda2omop/mapper/transforms.py`   — field transforms,
* `src/ccda2omop/mapper/rules.py`        — rule data model,
* `src/ccda2omop/mapper/rule_loader.py`  — YAML rule loading,
* `src/ccda2omop/mapper/rule_engine.py`  — the rule execution engine.

Python exceptions are modelled with the `Except PyErr` monad; Python `dict`s
are modelled as insertion-ordered association lists with first-match lookup
and replace-in-place update, which coincides with `dict` semantics because a
`dict` holds at most one entry per key.
-/

/-- Models the class of Python exceptions observable in the embedded code:
`lxml` XPath evaluation errors, `TypeError`, `AttributeError` and `KeyError`. -/
inductive PyErr where
  | xpathError : String → PyErr
  | typeError : String → PyErr
  | attributeError : String → PyErr
  | keyError : String → PyErr
deriving DecidableEq, Repr

def except_dec_eq {ε α : Type} [DecidableEq ε] [DecidableEq α] :
    (a b : Except ε α) → Decidable (a = b)
  | .error a, .error b =>
    if h : a = b then .isTrue (by rw [h])
    else .isFalse (by intro hh; cases hh; exact h rfl)
  | .error _, .ok _ => .isFalse (by intro h; cases h)
  | .ok _, .error _ => .isFalse (by intro h; cases h)
  | .ok a, .ok b =>
    if h : a = b then .isTrue (by rw [h])
    else .isFalse (by intro hh; cases hh; exact h rfl)

instance {ε α : Type} [DecidableEq ε] [DecidableEq α] : DecidableEq (Except ε α) :=
  except_dec_eq

/-- Strip leading and trailing whitespace from a character list (the stripping
Python's numeric constructors perform on their argument). -/
def py_strip_chars (cs : List Char) : List Char :=
  ((cs.dropWhile Char.isWhitespace).reverse.dropWhile Char.isWhitespace).reverse

/-- A non-empty all-digit character run read as a decimal number. -/
def digits_nat? (cs : List Char) : Option Nat :=
  if !cs.isEmpty && cs.all Char.isDigit then
    some (cs.foldl (fun n c => n * 10 + (c.toNat - 48)) 0)
  else none

/-- Models the Python builtin `int(s)` on the string shapes that occur in this
code base (optional sign followed by decimal digits, surrounding whitespace
allowed); any other string models the `ValueError` branch as `none`. -/
def pyInt? (s : String) : Option Int :=
  match py_strip_chars s.data with
  | '-' :: rest => (digits_nat? rest).map (fun n => -(n : Int))
  | '+' :: rest => (digits_nat? rest).map (fun n => (n : Int))
  | t => (digits_nat? t).map (fun n => (n : Int))

/-- Split a character list at a separator character (`str.split(sep)` for the
single-character separators this code base uses). -/
def split_chars (sep : Char) (cs : List Char) : List (List Char) :=
  cs.foldr
    (fun c acc =>
      if c = sep then [] :: acc
      else
        match acc with
        | g :: gs => (c :: g) :: gs
        | [] => [[c]])
    [[]]

/-- `str.split(sep)` producing strings. -/
def py_split_on (s : String) (sep : Char) : List String :=
  (split_chars sep s.data).map String.mk

/-- `sep.join(parts)`. -/
def py_join (sep : String) : List String → String
  | [] => ""
  | p :: rest => rest.foldl (fun acc q => acc ++ sep ++ q) p

/-- `str.lower()` (the inputs here are ASCII). -/
def py_lower (s : String) : String :=
  String.mk (s.data.map Char.toLower)

/-- `starts_with hay needle` is true when `needle` is an initial run of `hay`. -/
def starts_with : List Char → List Char → Bool
  | _, [] => true
  | [], _ :: _ => false
  | h :: hs, n :: ns => h = n && starts_with hs ns

/-- `has_substring hay needle` models the Python `in` operator on strings. -/
def has_substring : List Char → List Char → Bool
  | hay, needle =>
    starts_with hay needle ||
      match hay with
      | [] => false
      | _ :: hs => has_substring hs needle

/-- Python `needle in hay` for strings. -/
def py_in_str (needle hay : String) : Bool :=
  has_substring hay.data needle.data

/-- Python `ch in s` for a single character. -/
def py_char_in (c : Char) (s : String) : Bool :=
  s.data.contains c

/-- Index of the last occurrence of `c` in `s` (`str.rfind`), if any. -/
def last_index_of (c : Char) (s : String) : Option Nat :=
  ((List.range s.data.length).filter (fun i => s.data.getD i ' ' = c)).getLast?

/-!  ## Deterministic ID generation — `src/ccda2omop/omop/ids.py`

`generate_id` hashes its arguments with SHA-256 (`hashlib.sha256`).  The hash
function is embedded below from FIPS 180-4, operating on byte lists with plain
`Nat` arithmetic reduced modulo 2^32.  A streaming `h.update(...)` sequence is
embedded as accumulation of the bytes fed to the hash. -/

/-- Truncation to a 32-bit word. -/
def w32 (n : Nat) : Nat := n % 4294967296

/-- 32-bit right rotation. -/
def rotr32 (n x : Nat) : Nat := w32 ((x >>> n) ||| (x <<< (32 - n)))

def sha_ch (x y z : Nat) : Nat := (x &&& y) ^^^ ((x ^^^ 4294967295) &&& z)

def sha_maj (x y z : Nat) : Nat := (x &&& y) ^^^ (x &&& z) ^^^ (y &&& z)

def big_sigma0 (x : Nat) : Nat := rotr32 2 x ^^^ rotr32 13 x ^^^ rotr32 22 x

def big_sigma1 (x : Nat) : Nat := rotr32 6 x ^^^ rotr32 11 x ^^^ rotr32 25 x

def small_sigma0 (x : Nat) : Nat := rotr32 7 x ^^^ rotr32 18 x ^^^ (x >>> 3)

def small_sigma1 (x : Nat) : Nat := rotr32 17 x ^^^ rotr32 19 x ^^^ (x >>> 10)

/-- Bounded binary search for the largest `k` with `f k ≤ n` (for monotone
`f` with `f 0 = 0`); the fuel bounds the iteration count, 200 being ample for
every argument used here. -/
def bsearch_root (f : Nat → Nat) (n : Nat) : Nat → Nat → Nat → Nat
  | 0, lo, _ => lo
  | fuel + 1, lo, hi =>
    if lo ≥ hi then lo
    else
      let mid := (lo + hi + 1) / 2
      if f mid ≤ n then bsearch_root f n fuel mid hi
      else bsearch_root f n fuel lo (mid - 1)

/-- Integer square root: the largest `k` with `k * k ≤ n`. -/
def nat_sqrt_floor (n : Nat) : Nat := bsearch_root (fun k => k * k) n 200 0 n

/-- Integer cube root: the largest `k` with `k ^ 3 ≤ n`. -/
def nat_cbrt_floor (n : Nat) : Nat := bsearch_root (fun k => k * k * k) n 200 0 n

/-- Primality by trial division (used only to enumerate the small primes the
SHA-256 constants are derived from). -/
def nat_is_prime (p : Nat) : Bool :=
  2 ≤ p && ((List.range p).drop 2).all (fun d => p % d ≠ 0)

/-- The first `n` primes (the 64th prime is 311 < 400). -/
def sha_primes (n : Nat) : List Nat :=
  ((List.range 400).filter nat_is_prime).take n

/-- The SHA-256 round constants (FIPS 180-4 §4.2.2): the first 32 bits of the
fractional parts of the cube roots of the first 64 primes. -/
def shaK : List Nat :=
  (sha_primes 64).map fun p => nat_cbrt_floor (p * 2 ^ 96) % 2 ^ 32

/-- The SHA-256 initial hash state (FIPS 180-4 §5.3.3): the first 32 bits of
the fractional parts of the square roots of the first 8 primes. -/
def shaH0 : List Nat :=
  (sha_primes 8).map fun p => nat_sqrt_floor (p * 2 ^ 64) % 2 ^ 32

/-- Big-endian 8-byte encoding of a number below 2^64. -/
def be8 (n : Nat) : List Nat :=
  [n / 2 ^ 56 % 256, n / 2 ^ 48 % 256, n / 2 ^ 40 % 256, n / 2 ^ 32 % 256,
   n / 2 ^ 24 % 256, n / 2 ^ 16 % 256, n / 2 ^ 8 % 256, n % 256]

/-- Big-endian 4-byte encoding of a 32-bit word. -/
def be4 (n : Nat) : List Nat :=
  [n / 2 ^ 24 % 256, n / 2 ^ 16 % 256, n / 2 ^ 8 % 256, n % 256]

/-- SHA-256 padding: append `0x80`, zeros to 56 mod 64, then the bit length. -/
def sha256_pad (msg : List Nat) : List Nat :=
  let len := msg.length
  let r := (len + 1) % 64
  let zeros := if r ≤ 56 then 56 - r else 120 - r
  msg ++ [128] ++ List.replicate zeros 0 ++ be8 (len * 8)

/-- Split a byte list into 64-byte chunks; the fuel (the list length, which
only shrinks) makes the recursion structural. -/
def chunks64_aux : Nat → List Nat → List (List Nat)
  | 0, _ => []
  | fuel + 1, l => if l = [] then [] else l.take 64 :: chunks64_aux fuel (l.drop 64)

/-- Split a byte list into 64-byte chunks. -/
def chunks64 (l : List Nat) : List (List Nat) :=
  chunks64_aux l.length l

/-- Big-endian 32-bit words of a 64-byte chunk. -/
def chunk_words (chunk : List Nat) : List Nat :=
  (List.range 16).map fun i =>
    chunk.getD (4 * i) 0 * 2 ^ 24 + chunk.getD (4 * i + 1) 0 * 2 ^ 16 +
      chunk.getD (4 * i + 2) 0 * 2 ^ 8 + chunk.getD (4 * i + 3) 0

/-- One message-schedule extension step: appends the next `W` word. -/
def schedule_step (ws : List Nat) : List Nat :=
  let n := ws.length
  ws ++ [w32 (small_sigma1 (ws.getD (n - 2) 0) + ws.getD (n - 7) 0 +
              small_sigma0 (ws.getD (n - 15) 0) + ws.getD (n - 16) 0)]

/-- The 64-word message schedule of one chunk. -/
def message_schedule (chunk : List Nat) : List Nat :=
  (List.range 48).foldl (fun ws _ => schedule_step ws) (chunk_words chunk)

/-- One SHA-256 compression round on the 8-word working state. -/
def sha_round (st : List Nat) (kw : Nat × Nat) : List Nat :=
  match st with
  | [a, b, c, d, e, f, g, h] =>
    let t1 := w32 (h + big_sigma1 e + sha_ch e f g + kw.1 + kw.2)
    let t2 := w32 (big_sigma0 a + sha_maj a b c)
    [w32 (t1 + t2), a, b, c, w32 (d + t1), e, f, g]
  | other => other

/-- Compress one 64-byte chunk into the running 8-word hash state. -/
def sha256_compress (state : List Nat) (chunk : List Nat) : List Nat :=
  let ws := message_schedule chunk
  let final := (shaK.zip ws).foldl sha_round state
  (state.zip final).map fun p => w32 (p.1 + p.2)

/-- SHA-256 of a byte list, as the 32-byte digest. -/
def sha256 (msg : List Nat) : List Nat :=
  ((chunks64 (sha256_pad msg)).foldl sha256_compress shaH0).map be4 |>.flatten

/-- UTF-8 bytes of a string, as `Nat`s. -/
def utf8_bytes (s : String) : List Nat :=
  s.toUTF8.toList.map (fun b => b.toNat)

/-- Big-endian unsigned integer denoted by a byte list (`struct.unpack(">Q", ...)`
for an 8-byte list). -/
def be_nat (bytes : List Nat) : Nat :=
  bytes.foldl (fun acc b => acc * 256 + b) 0

/-- `generate_id` from `src/ccda2omop/omop/ids.py`: feed each value's UTF-8
bytes plus a `0x00` separator into SHA-256, read the first 8 digest bytes as a
big-endian unsigned 64-bit integer, reinterpret in the signed 64-bit range and
return the absolute value. -/
def generate_id (values : List String) : Int :=
  let buf := values.foldl (fun acc v => acc ++ utf8_bytes v ++ [0]) []
  let digest := sha256 buf
  let raw_id := be_nat (digest.take 8)
  let signed : Int := if raw_id > 2 ^ 63 - 1 then (raw_id : Int) - 2 ^ 64 else (raw_id : Int)
  (signed.natAbs : Int)

/-- The specification's reference definition of the ID generator: SHA-256 over
the concatenation of each part's UTF-8 bytes each followed by a single `0x00`
separator byte, first 8 digest bytes as a big-endian unsigned 64-bit integer,
reinterpreted as signed 64-bit, absolute value returned.  Stated from the
spec's words, to be compared with `generate_id` above. -/
def spec_generate_id (values : List String) : Int :=
  let msg := (values.map (fun v => utf8_bytes v ++ [0])).flatten
  let digest := sha256 msg
  let raw_id := be_nat (digest.take 8)
  let signed : Int := if raw_id > 2 ^ 63 - 1 then (raw_id : Int) - 2 ^ 64 else (raw_id : Int)
  (signed.natAbs : Int)

namespace ccda2omop

/-!  ## Vocabulary index — `src/ccda2omop/mapper/vocab_loader.py` -/

/-- One row of the OMOP CONCEPT table (`Concept` dataclass). -/
structure Concept where
  concept_id : Int
  concept_name : String
  domain_id : String
  vocabulary_id : String
  concept_class_id : String
  standard_concept : String
  concept_code : String
deriving DecidableEq, Repr

/-- The in-memory state of `VocabLoader`: the `(vocabulary_id, concept_code)`
index, the `concept_id` index and the "Maps to" edge lists.  File loading
(`load_concepts`, `load_supplementary_vocab`) is I/O preprocessing that fills
the two concept indexes; the relationship load over already-parsed rows is
embedded below because the claims depend on its order-preserving behaviour. -/
structure VocabLoader where
  concept_index : List (String × Concept)
  concept_by_id : List (Int × Concept)
  maps_to : List (Int × List Int)
deriving Repr

/-- `VocabLoader._concept_key`. -/
def concept_key (vocab_id code : String) : String :=
  vocab_id ++ "|" ++ code

/-- `VocabLoader.lookup_concept`. -/
def VocabLoader.lookup_concept (vl : VocabLoader) (vocab_id code : String) : Option Concept :=
  vl.concept_index.lookup (concept_key vocab_id code)

/-- `VocabLoader.lookup_concept_by_id`. -/
def VocabLoader.lookup_concept_by_id (vl : VocabLoader) (concept_id : Int) : Option Concept :=
  vl.concept_by_id.lookup concept_id

/-- `VocabLoader.get_standard_concept_ids`. -/
def VocabLoader.get_standard_concept_ids (vl : VocabLoader) (vocab_id code : String) :
    List Int :=
  match vl.lookup_concept vocab_id code with
  | none => []
  | some concept =>
    if concept.standard_concept = "S" then [concept.concept_id]
    else
      let target_ids := (vl.maps_to.lookup concept.concept_id).getD []
      if target_ids ≠ [] then target_ids else [concept.concept_id]

/-- `VocabLoader.get_standard_concept_id`. -/
def VocabLoader.get_standard_concept_id (vl : VocabLoader) (vocab_id code : String) : Int :=
  (vl.get_standard_concept_ids vocab_id code).headD 0

/-- `VocabLoader.get_concept_domain`. -/
def VocabLoader.get_concept_domain (vl : VocabLoader) (concept_id : Int) : String :=
  match vl.concept_by_id.lookup concept_id with
  | some concept => concept.domain_id
  | none => ""

/-- `self._maps_to[source_id].append(target_id)` after
`if source_id not in self._maps_to: self._maps_to[source_id] = []`:
append `target_id` to the edge list of `source_id`, creating it if absent. -/
def dict_append (m : List (Int × List Int)) (k : Int) (t : Int) : List (Int × List Int) :=
  match m with
  | [] => [(k, [t])]
  | (k0, v) :: rest =>
    if k0 = k then (k0, v ++ [t]) :: rest else (k0, v) :: dict_append rest k t

/-- One data row of `VocabLoader.load_concept_relationships`: keep only rows
with at least 6 fields, relationship `"Maps to"`, empty invalid-reason, both
ids parseable, and a source concept already present in the index. -/
def rel_row_step (vl : VocabLoader) (row : List String) : VocabLoader :=
  if row.length < 6 then vl
  else if row.getD 2 "" ≠ "Maps to" then vl
  else if row.getD 5 "" ≠ "" then vl
  else
    match pyInt? (row.getD 0 ""), pyInt? (row.getD 1 "") with
    | some source_id, some target_id =>
      if (vl.concept_by_id.lookup source_id).isSome then
        { vl with maps_to := dict_append vl.maps_to source_id target_id }
      else vl
    | _, _ => vl

/-- `VocabLoader.load_concept_relationships` over the already-parsed data rows
(header validation and the returned count are omitted). -/
def VocabLoader.load_concept_relationships (vl : VocabLoader) (rows : List (List String)) :
    VocabLoader :=
  rows.foldl rel_row_step vl

/-- The target id a single relationship row contributes for source concept
`source`: the row must have at least 6 fields, relationship `"Maps to"`, an
empty invalid-reason, parseable ids, a source id equal to `source` and present
in the concept index. -/
def live_row_target (vl : VocabLoader) (source : Int) (row : List String) : Option Int :=
  if row.length < 6 then none
  else if row.getD 2 "" ≠ "Maps to" then none
  else if row.getD 5 "" ≠ "" then none
  else
    match pyInt? (row.getD 0 ""), pyInt? (row.getD 1 "") with
    | some s, some t =>
      if s = source ∧ (vl.concept_by_id.lookup s).isSome then some t else none
    | _, _ => none

/-- The live "Maps to" target ids a relationship load contributes for a given
source concept, in load order. -/
def live_maps_to_targets (vl : VocabLoader) (rows : List (List String)) (source : Int) :
    List Int :=
  rows.filterMap (live_row_target vl source)

/-!  ## Code-system resolution — `src/ccda2omop/mapper/vocabulary.py` -/

def CONCEPT_NO_MAPPING : Int := 0

/-- The literal OID/alias table of `oid_to_vocabulary_id`. -/
def VOCAB_OID_TABLE : List (String × String) :=
  [("2.16.840.1.113883.6.96", "SNOMED"),
   ("2.16.840.1.113883.6.88", "RxNorm"),
   ("2.16.840.1.113883.6.1", "LOINC"),
   ("2.16.840.1.113883.6.90", "ICD10CM"),
   ("2.16.840.1.113883.6.103", "ICD9CM"),
   ("2.16.840.1.113883.6.12", "CPT4"),
   ("2.16.840.1.113883.6.14", "HCPCS"),
   ("2.16.840.1.113883.6.13", "HCPCS"),
   ("2.16.840.1.113883.12.292", "CVX"),
   ("2.16.840.1.113883.6.59", "CVX"),
   ("2.16.840.1.113883.6.69", "NDC"),
   ("2.16.840.1.113883.4.9", "UNII"),
   ("2.16.840.1.113883.3.26.1.5", "NDFRT"),
   ("2.16.840.1.113883.3.26.1.1", "NCI"),
   ("2.16.840.1.113883.5.4", "ActCode"),
   ("2.16.840.1.113883.5.112", "RouteOfAdministration"),
   ("SNOMED", "SNOMED"),
   ("SNOMED CT", "SNOMED"),
   ("SNOMEDCT", "SNOMED"),
   ("RxNorm", "RxNorm"),
   ("LOINC", "LOINC"),
   ("ICD10CM", "ICD10CM"),
   ("ICD-10-CM", "ICD10CM"),
   ("ICD10", "ICD10CM"),
   ("ICD9CM", "ICD9CM"),
   ("ICD-9-CM", "ICD9CM"),
   ("ICD9", "ICD9CM"),
   ("CPT4", "CPT4"),
   ("CPT", "CPT4"),
   ("CPT-4", "CPT4"),
   ("HCPCS", "HCPCS"),
   ("CVX", "CVX"),
   ("NDC", "NDC"),
   ("UNII", "UNII"),
   ("NDFRT", "NDFRT"),
   ("NDF-RT", "NDFRT"),
   ("NCI", "NCI"),
   ("NCIt", "NCI"),
   ("ActCode", "ActCode"),
   ("ASSERTION", "ActCode"),
   ("RouteOfAdministration", "RouteOfAdministration")]

/-- `oid_to_vocabulary_id`: `mapping.get(oid, "")`. -/
def oid_to_vocabulary_id (oid : String) : String :=
  (VOCAB_OID_TABLE.lookup oid).getD ""

/-- `VocabularyMapper`: holds the optional vocabulary loader.  The fixed
demographic fallback tables (`_gender_concepts` etc.) are not referenced by
the verified operations and are omitted. -/
structure VocabularyMapper where
  vocab_loader : Option VocabLoader := none

/-- `VocabularyMapper.get_concept_domain`. -/
def VocabularyMapper.get_concept_domain (m : VocabularyMapper) (concept_id : Int) : String :=
  match m.vocab_loader with
  | none => ""
  | some vl => vl.get_concept_domain concept_id

/-- `VocabularyMapper.map_unit_code`. -/
def VocabularyMapper.map_unit_code (m : VocabularyMapper) (unit : String) : Int :=
  match m.vocab_loader with
  | none => CONCEPT_NO_MAPPING
  | some vl =>
    if unit = "" then CONCEPT_NO_MAPPING
    else vl.get_standard_concept_id "UCUM" unit

/-- `VocabularyMapper.map_route_code`. -/
def VocabularyMapper.map_route_code (m : VocabularyMapper) (code code_system : String) : Int :=
  match m.vocab_loader with
  | none => CONCEPT_NO_MAPPING
  | some vl =>
    if code = "" then CONCEPT_NO_MAPPING
    else
      let vocab_id := oid_to_vocabulary_id code_system
      let vocab_id := if vocab_id = "" then "SNOMED" else vocab_id
      vl.get_standard_concept_id vocab_id code

/-- `VocabularyMapper.map_observation_value_code`. -/
def VocabularyMapper.map_observation_value_code (m : VocabularyMapper)
    (code code_system : String) : Int :=
  match m.vocab_loader with
  | none => CONCEPT_NO_MAPPING
  | some vl =>
    if code = "" then CONCEPT_NO_MAPPING
    else
      let vocab_id := oid_to_vocabulary_id code_system
      let vocab_id := if vocab_id = "" then "SNOMED" else vocab_id
      vl.get_standard_concept_id vocab_id code

/-!  ## XML entry model and extractor — `src/ccda2omop/mapper/extractor.py`

An `lxml` element node is modelled abstractly: the attributes and children the
engine reads (`moodCode`, the `statusCode` child's `code`) are explicit
fields, and `node.xpath(expr)` is a function field returning either a result
list or an `lxml` XPath evaluation error.  An XPath result item is either a
plain string (an attribute or text result) or an element. -/

/-- An element appearing in an XPath result list: its `.text`, its attributes
(for `.get`), and the string Python's `str()` produces for the element object
(`lxml` elements do not stringify to their contents). -/
structure XElem where
  text : Option String
  attrs : List (String × String)
  py_str : String
deriving DecidableEq, Repr

/-- One item of an `lxml` XPath result list. -/
inductive XNode where
  | str : String → XNode
  | elem : XElem → XNode
deriving DecidableEq, Repr

/-- `str(result[0]) if not isinstance(result[0], etree._Element) else
result[0].text or ""` — the stringification used by `_extract_xpath_value`. -/
def xnode_str_or_text : XNode → String
  | .str s => s
  | .elem e => e.text.getD ""

/-- Plain Python `str(result[0])`, used where the code does not special-case
elements. -/
def xnode_py_str : XNode → String
  | .str s => s
  | .elem e => e.py_str

/-- An entry node as consumed by the rule engine: its `moodCode` attribute
(`""` when absent), the `code` attribute of its `statusCode` child (`none`
when there is no such child, `some ""` when the child lacks the attribute),
and its XPath evaluator, which models `node.xpath(expr)` and may raise. -/
structure EntryNode where
  moodCode : String
  statusCode : Option String
  xpathE : String → Except PyErr (List XNode)

/-- `should_include_entry` from `src/ccda2omop/mapper/extractor.py`: `None`
fails closed; a non-`EVN` mood code excludes; a status code other than
`completed`/`active` excludes. -/
def should_include_entry : Option EntryNode → Bool
  | none => false
  | some node =>
    if node.moodCode ≠ "" ∧ node.moodCode ≠ "EVN" then false
    else
      match node.statusCode with
      | some status =>
        if status ≠ "" ∧ status ≠ "completed" ∧ status ≠ "active" then false
        else true
      | none => true

/-!  ## HL7 time parsing — `src/ccda2omop/ccda/hl7_time.py` -/

/-- A Python `datetime` value as produced by `datetime.strptime` on the HL7
formats (no timezone, microsecond always 0 here). -/
structure PyDateTime where
  year : Nat
  month : Nat
  day : Nat
  hour : Nat
  minute : Nat
  second : Nat
  microsecond : Nat
deriving DecidableEq, Repr

/-- Gregorian leap-year rule used by `datetime`. -/
def is_leap_year (y : Nat) : Bool :=
  y % 4 = 0 && (y % 100 ≠ 0 || y % 400 = 0)

/-- Days in a month, as validated by the `datetime` constructor. -/
def days_in_month (y m : Nat) : Nat :=
  if m = 2 then (if is_leap_year y then 29 else 28)
  else if m = 4 ∨ m = 6 ∨ m = 9 ∨ m = 11 then 30
  else 31

/-- `datetime.strptime(s, fmt)` for the fixed-width all-numeric HL7 formats
`%Y%m%d%H%M%S` down to `%Y`: `widths` lists the digit widths after the 4-digit
year.  On an input of exactly the total width, the format regex can only
consume the string at maximal field widths, so fixed-width parsing plus
`datetime` range validation is faithful. -/
def strptime_fixed (cs : List Char) (widths : List Nat) : Option PyDateTime := do
  let year ← digits_nat? (cs.take 4)
  let rest := cs.drop 4
  let fields ← widths.foldlM (fun (acc : List Nat × List Char) w => do
      let v ← digits_nat? (acc.2.take w)
      pure (acc.1 ++ [v], acc.2.drop w)) (([] : List Nat), rest)
  let month := fields.1.getD 0 1
  let day := fields.1.getD 1 1
  let hour := fields.1.getD 2 0
  let minute := fields.1.getD 3 0
  let second := fields.1.getD 4 0
  if 1 ≤ year ∧ 1 ≤ month ∧ month ≤ 12 ∧ 1 ≤ day ∧ day ≤ days_in_month year month ∧
      hour ≤ 23 ∧ minute ≤ 59 ∧ second ≤ 59 then
    pure ⟨year, month, day, hour, minute, second, 0⟩
  else none

/-- `parse_hl7_time`: strip trailing `Z`s, cut at a trailing `+`/`-` timezone
offset, then try the formats longest-first on prefixes of the string. -/
def parse_hl7_time (s : String) : Option PyDateTime :=
  if s = "" then none
  else
    let cs := (s.data.reverse.dropWhile (· = 'Z')).reverse
    let cs :=
      if (cs.drop 1).contains '+' then
        match last_index_of '+' (String.mk cs) with
        | some idx => if idx > 0 then cs.take idx else cs
        | none => cs
      else if (cs.drop 1).contains '-' then
        match last_index_of '-' (String.mk cs) with
        | some idx => if idx > 0 then cs.take idx else cs
        | none => cs
      else cs
    let tryFmt := fun (widths : List Nat) (length : Nat) (next : Option PyDateTime) =>
      if cs.length ≥ length then
        match strptime_fixed (cs.take length) widths with
        | some dt => some dt
        | none => next
      else next
    tryFmt [2, 2, 2, 2, 2] 14 <|
    tryFmt [2, 2, 2, 2] 12 <|
    tryFmt [2, 2, 2] 10 <|
    tryFmt [2, 2] 8 <|
    tryFmt [2] 6 <|
    tryFmt [] 4 <|
    none

/-- `extract_time` from the extractor: evaluate the XPath, take the first
result's `value` attribute (or its stringification when not an element) and
parse it as an HL7 time. -/
def extract_time (entry : EntryNode) (xpath : String) : Except PyErr (Option PyDateTime) := do
  let result ← entry.xpathE xpath
  match result with
  | [] => return none
  | x :: _ =>
    let val :=
      match x with
      | .elem e => (e.attrs.lookup "value").getD ""
      | .str s => s
    return parse_hl7_time val

/-!  ## Transforms — `src/ccda2omop/mapper/transforms.py` -/

/-- Models the Python builtin `float(s)` acceptance on the literal shapes rule
files and documents produce: optional surrounding whitespace, optional sign,
then digits with an optional fractional part or a bare fractional literal.
(`inf`/`nan` and exponent forms are not produced by this pipeline.)  The
float's value is carried as its accepted literal text; only the success or
failure of the parse is observable in the verified properties. -/
def pyFloatLit? (s : String) : Option String :=
  let t := py_strip_chars s.data
  let body := match t with | '-' :: r => r | '+' :: r => r | other => other
  let parts := split_chars '.' body
  let ok : Bool :=
    match parts with
    | [intPart] => !intPart.isEmpty && intPart.all Char.isDigit
    | [intPart, fracPart] =>
      (!intPart.isEmpty || !fracPart.isEmpty) &&
        intPart.all Char.isDigit && fracPart.all Char.isDigit
    | _ => false
  if ok then some (String.mk t) else none

/-- An untyped scalar carried in a record (`dict` value): the engine stores
strings, ints, floats and datetimes. -/
inductive Value where
  | vStr : String → Value
  | vInt : Int → Value
  | vFloat : String → Value
  | vDate : PyDateTime → Value
deriving DecidableEq, Repr

/-- `transform_date`: truncate a datetime to midnight; `None` passes through. -/
def transform_date : Option PyDateTime → Option PyDateTime
  | none => none
  | some dt => some { dt with hour := 0, minute := 0, second := 0, microsecond := 0 }

/-- `format_source_value`: `"code: display"` when both present, else whichever
is non-empty. -/
def format_source_value (code display_name : String) : String :=
  if code ≠ "" ∧ display_name ≠ "" then code ++ ": " ++ display_name
  else if display_name ≠ "" then display_name
  else code

/-!  ## Rule data model — `src/ccda2omop/mapper/rules.py` -/

structure Condition where
  type : String := ""
  field : String := ""
  value : String := ""
deriving DecidableEq, Repr

structure Extraction where
  field : String := ""
  xpath : String := ""
  type : String := ""
deriving DecidableEq, Repr

structure SourceSpec where
  «section» : String := ""
  section_oid : String := ""
  section_oid_entries_required : String := ""
  entry_xpath : String := ""
  entry_type : String := ""
  extraction : List Extraction := []
  conditions : List Condition := []
deriving DecidableEq, Repr

structure TargetSpec where
  table : String := ""
  type_concept_id : Int := 0
deriving DecidableEq, Repr

structure FieldMapping where
  target : String := ""
  xpath : String := ""
  fallback_xpath : String := ""
  vocab_xpath : String := ""
  transform : String := ""
  optional : Bool := false
  source : String := ""
  vocab_field : String := ""
deriving DecidableEq, Repr

structure IDGenSpec where
  base_fields : List String := []
  generator : String := ""
deriving DecidableEq, Repr

structure MappingRule where
  name : String := ""
  source : SourceSpec := {}
  target : TargetSpec := {}
  fields : List FieldMapping := []
  id_gen : IDGenSpec := {}
deriving DecidableEq, Repr

/-!  ## Rule execution engine — `src/ccda2omop/mapper/rule_engine.py`

`RuleEngine` holds a `VocabularyMapper` (and a `verbose` flag that the mapping
methods never read); its methods are embedded as functions taking the
vocabulary mapper as their first argument. -/

/-- The untyped record built by the engine: a Python `dict` from column name
to scalar value, as an insertion-ordered association list. -/
abbrev OmopRecord := List (String × Value)

/-- Python `record[k] = v`: replace the value in place if the key is present,
else append the binding. -/
def dict_set (m : OmopRecord) (k : String) (v : Value) : OmopRecord :=
  match m with
  | [] => [(k, v)]
  | (k0, v0) :: rest => if k0 = k then (k0, v) :: rest else (k0, v0) :: dict_set rest k v

/-- `RuleEngine._extract_xpath_value`: primary XPath with optional fallback;
an empty primary expression goes straight to the fallback. -/
def extract_xpath_value (entry : EntryNode) (xpath : String)
    (fallback_xpath : String := "") : Except PyErr String := do
  if xpath = "" then
    if fallback_xpath ≠ "" then
      let result ← entry.xpathE fallback_xpath
      match result with
      | x :: _ => return xnode_str_or_text x
      | [] => return ""
    else
      return ""
  else
    let result ← entry.xpathE xpath
    match result with
    | x :: _ => return xnode_str_or_text x
    | [] =>
      if fallback_xpath ≠ "" then
        let result ← entry.xpathE fallback_xpath
        match result with
        | x :: _ => return xnode_str_or_text x
        | [] => return ""
      else
        return ""

/-- The `for fm in rule.fields` loop of `RuleEngine._extract_concept_ids`:
for the first `vocab`-transform field whose code is non-empty, resolve the
code system and query the vocabulary index; a successful lookup returns its
ids, otherwise `[0]` is returned when entries are not required, otherwise the
scan continues with the remaining fields. -/
def extract_concept_ids_loop (vocab : VocabularyMapper) (entry : EntryNode)
    (entries_required : Bool) : List FieldMapping → Except PyErr (List Int)
  | [] => pure []
  | fm :: rest => do
    if fm.transform = "vocab" then
      let code ← extract_xpath_value entry fm.xpath fm.fallback_xpath
      if code = "" then
        extract_concept_ids_loop vocab entry entries_required rest
      else
        let code_system ←
          if fm.vocab_xpath ≠ "" then do
            let result ← entry.xpathE fm.vocab_xpath
            match result with
            | x :: _ => pure (xnode_str_or_text x)
            | [] => pure ""
          else pure ""
        let vocab_id := oid_to_vocabulary_id code_system
        let ids :=
          match vocab.vocab_loader with
          | some vl =>
            if vocab_id ≠ "" then vl.get_standard_concept_ids vocab_id code else []
          | none => []
        if ids ≠ [] then
          pure ids
        else if ¬ entries_required then
          pure [0]
        else
          extract_concept_ids_loop vocab entry entries_required rest
    else
      extract_concept_ids_loop vocab entry entries_required rest

/-- `RuleEngine._extract_concept_ids`. -/
def extract_concept_ids (vocab : VocabularyMapper) (rule : MappingRule) (entry : EntryNode)
    (entries_required : Bool) : Except PyErr (List Int) :=
  extract_concept_ids_loop vocab entry entries_required rule.fields

/-- `RuleEngine._check_conditions`: every condition must hold; only the
`domain_equals` / `domain_not_equals` condition types are implemented and any
other type is ignored.  The `entry` parameter is present but unread, as in the
source. -/
def check_conditions (vocab : VocabularyMapper) (conditions : List Condition)
    (entry : EntryNode) (concept_id : Int) : Bool :=
  conditions.all fun cond =>
    if cond.type = "domain_equals" then
      vocab.get_concept_domain concept_id == cond.value
    else if cond.type = "domain_not_equals" then
      vocab.get_concept_domain concept_id != cond.value
    else
      true

/-- `RuleEngine._generate_id`: seed values are the person id plus the
id-generation base-field values found on the entry; the generator namespace
defaults to the target table name. -/
def rule_generate_id (rule : MappingRule) (entry : EntryNode) (person_id : Int) :
    Except PyErr Int := do
  let values := [toString person_id]
  let values ← rule.id_gen.base_fields.foldlM
    (fun (vs : List String) field_path => do
      let xpath :=
        if py_char_in '.' field_path then
          let parts := py_split_on field_path '.'
          py_lower (py_join "/" parts.dropLast) ++ "/@" ++
            py_lower (parts.getLastD "")
        else
          py_lower field_path ++ "/@value"
      let result ← entry.xpathE xpath
      match result with
      | x :: _ => pure (vs ++ [xnode_py_str x])
      | [] => pure vs)
    values
  let generator :=
    if rule.id_gen.generator = "" then rule.target.table else rule.id_gen.generator
  return generate_id (generator :: values)

/-- `RuleEngine._extract_field_value`: `vocab` fields short-circuit to the
resolved concept id; other fields extract the raw value (primary then
fallback) and apply the named transform.  The registry entries
`transform_none` and `transform_string` (and any unknown transform name,
which `get_transform` maps to `transform_none`) return the raw string
unchanged, which is never `None`. -/
def extract_field_value (vocab : VocabularyMapper) (entry : EntryNode) (fm : FieldMapping)
    (concept_id : Int) (visit_map : List (String × Int)) : Except PyErr (Option Value) := do
  if fm.transform = "vocab" then
    return some (.vInt concept_id)
  let raw ← extract_xpath_value entry fm.xpath fm.fallback_xpath
  if fm.transform = "date" then
    let dt ← extract_time entry fm.xpath
    return (transform_date dt).map Value.vDate
  else if fm.transform = "time_ptr" then
    let dt ← extract_time entry fm.xpath
    return dt.map Value.vDate
  else if fm.transform = "float" then
    return (pyFloatLit? raw).map Value.vFloat
  else if fm.transform = "int" then
    return (pyInt? raw).map Value.vInt
  else if fm.transform = "unit" then
    if raw ≠ "" then return some (.vInt (vocab.map_unit_code raw)) else return none
  else if fm.transform = "route" then
    let code_system ←
      if fm.vocab_xpath ≠ "" then do
        let result ← entry.xpathE fm.vocab_xpath
        match result with
        | x :: _ => pure (xnode_py_str x)
        | [] => pure ""
      else pure ""
    if raw ≠ "" then return some (.vInt (vocab.map_route_code raw code_system))
    else return none
  else if fm.transform = "value_vocab" then
    let code_system ←
      if fm.vocab_xpath ≠ "" then do
        let result ← entry.xpathE fm.vocab_xpath
        match result with
        | x :: _ => pure (xnode_py_str x)
        | [] => pure ""
      else pure ""
    if raw ≠ "" then return some (.vInt (vocab.map_observation_value_code raw code_system))
    else return none
  else if fm.transform = "format_source" then
    let display ←
      if fm.fallback_xpath ≠ "" then do
        let result ← entry.xpathE fm.fallback_xpath
        match result with
        | x :: _ => pure (xnode_py_str x)
        | [] => pure ""
      else pure ""
    return some (.vStr (format_source_value raw display))
  else
    return some (.vStr raw)

/-- The `for fm in rule.fields` loop of `RuleEngine._create_record`: each
field's extraction runs inside `try/except`; a non-`None` value is stored, a
`None` value or an exception aborts the record when the field is not optional
(a field is optional when flagged so or when entries are not required) and is
skipped otherwise.  After the loop the provenance tag is stored. -/
def create_record_loop (vocab : VocabularyMapper) (rule : MappingRule) (entry : EntryNode)
    (concept_id : Int) (visit_map : List (String × Int)) (entries_required : Bool) :
    OmopRecord → List FieldMapping → Option OmopRecord
  | record, [] => some (dict_set record "mapping_rule" (.vStr ("RuleMapper:" ++ rule.name)))
  | record, fm :: rest =>
    let is_optional := fm.optional || !entries_required
    match extract_field_value vocab entry fm concept_id visit_map with
    | .ok (some value) =>
      create_record_loop vocab rule entry concept_id visit_map entries_required
        (dict_set record fm.target value) rest
    | .ok none =>
      if !is_optional then none
      else create_record_loop vocab rule entry concept_id visit_map entries_required record rest
    | .error _ =>
      if !is_optional then none
      else create_record_loop vocab rule entry concept_id visit_map entries_required record rest

/-- `RuleEngine._create_record`: start from the id, person and type-concept
bindings, then process every field mapping. -/
def create_record (vocab : VocabularyMapper) (rule : MappingRule) (entry : EntryNode)
    (person_id record_id concept_id : Int) (visit_map : List (String × Int))
    (entries_required : Bool) : Option OmopRecord :=
  let id_field := rule.target.table ++ "_id"
  let type_field := (py_split_on rule.target.table '_').headD "" ++ "_type_concept_id"
  let record :=
    dict_set (dict_set (dict_set [] id_field (.vInt record_id))
        "person_id" (.vInt person_id))
      type_field (.vInt rule.target.type_concept_id)
  create_record_loop vocab rule entry concept_id visit_map entries_required record rule.fields

/-- `RuleEngine.map_entry`: inclusion filter, concept resolution (degrading to
the placeholder id `0` when entries are not required), condition check against
the first resolved concept id, seed id generation, then one record per
resolved concept id with the seed id plus the positional offset. -/
def map_entry (vocab : VocabularyMapper) (rule : MappingRule) (entry : EntryNode)
    (person_id : Int) (visit_map : List (String × Int)) (entries_required : Bool := true) :
    Except PyErr (List OmopRecord) := do
  if ¬ should_include_entry (some entry) then
    return []
  let cids ← extract_concept_ids vocab rule entry entries_required
  let concept_ids := if cids = [] then (if ¬ entries_required then [0] else []) else cids
  if concept_ids = [] then
    return []
  if rule.source.conditions ≠ [] then
    if ¬ check_conditions vocab rule.source.conditions entry (concept_ids.headD 0) then
      return []
  let base_id ← rule_generate_id rule entry person_id
  return concept_ids.enum.filterMap fun p =>
    create_record vocab rule entry person_id (base_id + (p.1 : Int)) p.2 visit_map
      entries_required

/-- `RuleEngine.map_entries`: map each entry and concatenate the results. -/
def map_entries (vocab : VocabularyMapper) (rule : MappingRule) (entries : List EntryNode)
    (person_id : Int) (visit_map : List (String × Int)) (entries_required : Bool := true) :
    Except PyErr (List OmopRecord) := do
  let results ← entries.mapM fun entry =>
    map_entry vocab rule entry person_id visit_map entries_required
  return results.flatten

/-!  ## YAML rule loading — `src/ccda2omop/mapper/rule_loader.py`

`yaml.safe_load` produces `None`, booleans, numbers, strings, sequences or
mappings; the `Yaml` type models that value space (numbers as integers —
rule files carry no floats — and mapping keys as strings, which is what rule
files use).  The Python `in`, `[]` and `.get` operators on such values,
including the exceptions they raise on unsupported operand types, are
embedded below, because `_load_rules_from_file` applies them to whatever the
document parsed to. -/

inductive Yaml where
  | nil : Yaml
  | bool : Bool → Yaml
  | int : Int → Yaml
  | str : String → Yaml
  | seq : List Yaml → Yaml
  | map : List (String × Yaml) → Yaml

/-- Python `==` between the string `key` and a YAML value: true exactly for
the equal string (values of other shapes compare unequal to a string). -/
def yaml_str_eq (key : String) : Yaml → Bool
  | .str t => t == key
  | _ => false

/-- Python `key in data` for a string key: key membership for a mapping,
element equality for a sequence, substring test for a string, and a
`TypeError` for scalars (`None` never reaches this operator in the loader). -/
def yaml_contains (data : Yaml) (key : String) : Except PyErr Bool :=
  match data with
  | .nil => .error (.typeError "argument of type NoneType is not iterable")
  | .bool _ => .error (.typeError "argument of type bool is not iterable")
  | .int _ => .error (.typeError "argument of type int is not iterable")
  | .str s => .ok (py_in_str key s)
  | .seq items => .ok (items.any (yaml_str_eq key))
  | .map kvs => .ok (kvs.any fun p => p.1 == key)

/-- Python `data[key]` for a string key: mapping indexing (`KeyError` when
absent), `TypeError` otherwise. -/
def yaml_index (data : Yaml) (key : String) : Except PyErr Yaml :=
  match data with
  | .map kvs =>
    match kvs.lookup key with
    | some v => .ok v
    | none => .error (.keyError key)
  | _ => .error (.typeError "indices must be integers")

/-- Python `data.get(key, default)`: only mappings have `.get`; any other
value raises `AttributeError`. -/
def yaml_get (data : Yaml) (key : String) (dflt : Yaml) : Except PyErr Yaml :=
  match data with
  | .map kvs => .ok ((kvs.lookup key).getD dflt)
  | _ => .error (.attributeError "object has no attribute get")

/-- Python `for x in data`: sequence elements, mapping keys, the characters of
a string, and a `TypeError` for scalars. -/
def yaml_iter (data : Yaml) : Except PyErr (List Yaml) :=
  match data with
  | .seq items => .ok items
  | .map kvs => .ok (kvs.map fun p => .str p.1)
  | .str s => .ok (s.data.map fun c => .str (String.mk [c]))
  | .nil => .error (.typeError "NoneType object is not iterable")
  | .bool _ => .error (.typeError "bool object is not iterable")
  | .int _ => .error (.typeError "int object is not iterable")

/-- Read a scalar obtained from a mapping at its declared string type.  Rule
files are well-typed, so a value of another shape is read as the default
(Python would store the raw object in the `str`-annotated dataclass field;
that dynamic mistyping is outside the modelled value space). -/
def yaml_as_str (y : Yaml) (dflt : String) : String :=
  match y with
  | .str s => s
  | _ => dflt

def yaml_as_int (y : Yaml) (dflt : Int) : Int :=
  match y with
  | .int n => n
  | _ => dflt

def yaml_as_bool (y : Yaml) (dflt : Bool) : Bool :=
  match y with
  | .bool b => b
  | _ => dflt

def yaml_as_list (y : Yaml) : List Yaml :=
  match y with
  | .seq items => items
  | _ => []

def yaml_as_str_list (y : Yaml) : List String :=
  (yaml_as_list y).filterMap fun v =>
    match v with
    | .str s => some s
    | _ => none

/-- `_convert_yaml_rule`: build a `MappingRule` from a parsed YAML dict; the
`.get` accesses raise `AttributeError` when the document (or one of the nested
condition/field entries) is not a mapping. -/
def convert_yaml_rule (data : Yaml) : Except PyErr MappingRule := do
  let source_data ← yaml_get data "source" (.map [])
  let target_data ← yaml_get data "target" (.map [])
  let id_gen_data ← yaml_get data "id_gen" (.map [])
  let conditions ← (yaml_as_list ((← yaml_get source_data "conditions" (.seq [])))).mapM
    fun c => do
      pure (Condition.mk (yaml_as_str (← yaml_get c "type" (.str "")) "")
        (yaml_as_str (← yaml_get c "field" (.str "")) "")
        (yaml_as_str (← yaml_get c "value" (.str "")) ""))
  let extractions ← (yaml_as_list ((← yaml_get source_data "extraction" (.seq [])))).mapM
    fun e => do
      pure (Extraction.mk (yaml_as_str (← yaml_get e "field" (.str "")) "")
        (yaml_as_str (← yaml_get e "xpath" (.str "")) "")
        (yaml_as_str (← yaml_get e "type" (.str "")) ""))
  let fields ← (yaml_as_list ((← yaml_get data "fields" (.seq [])))).mapM
    fun f => do
      pure (FieldMapping.mk (yaml_as_str (← yaml_get f "target" (.str "")) "")
        (yaml_as_str (← yaml_get f "xpath" (.str "")) "")
        (yaml_as_str (← yaml_get f "fallback_xpath" (.str "")) "")
        (yaml_as_str (← yaml_get f "vocab_xpath" (.str "")) "")
        (yaml_as_str (← yaml_get f "transform" (.str "")) "")
        (yaml_as_bool (← yaml_get f "optional" (.bool false)) false)
        (yaml_as_str (← yaml_get f "source" (.str "")) "")
        (yaml_as_str (← yaml_get f "vocab_field" (.str "")) ""))
  return MappingRule.mk
    (yaml_as_str (← yaml_get data "name" (.str "")) "")
    (SourceSpec.mk (yaml_as_str (← yaml_get source_data "section" (.str "")) "")
      (yaml_as_str (← yaml_get source_data "section_oid" (.str "")) "")
      (yaml_as_str (← yaml_get source_data "section_oid_entries_required" (.str "")) "")
      (yaml_as_str (← yaml_get source_data "entry_xpath" (.str "")) "")
      (yaml_as_str (← yaml_get source_data "entry_type" (.str "")) "")
      extractions conditions)
    (TargetSpec.mk (yaml_as_str (← yaml_get target_data "table" (.str "")) "")
      (yaml_as_int (← yaml_get target_data "type_concept_id" (.int 0)) 0))
    fields
    (IDGenSpec.mk (yaml_as_str_list (← yaml_get id_gen_data "base_fields" (.seq [])))
      (yaml_as_str (← yaml_get id_gen_data "generator" (.str "")) ""))

/-- `_load_rules_from_file`, applied to the parsed document of the file: an
empty document (`None`) yields no rules; a document with a top-level `name`
key is a single rule; one with a `rules` key is a rule list; anything else
yields no rules. -/
def load_rules_from_file (data : Yaml) : Except PyErr (List MappingRule) := do
  match data with
  | .nil => return []
  | _ =>
    if ← yaml_contains data "name" then
      let rule ← convert_yaml_rule data
      return [rule]
    else if ← yaml_contains data "rules" then
      let rules_y ← yaml_index data "rules"
      let items ← yaml_iter rules_y
      let rules ← items.mapM convert_yaml_rule
      return rules
    else
      return []

/-- A directory entry as seen by `Path.iterdir`: its file name, whether it is
a regular file, and the YAML document its contents parse to. -/
structure DirEntry where
  name : String
  isFile : Bool
  doc : Yaml

/-- `PurePath.suffix` (CPython): the part of the name from the last dot,
unless that dot is the first or last character. -/
def path_suffix (name : String) : String :=
  match last_index_of '.' name with
  | some i => if 0 < i ∧ i < name.length - 1 then String.mk (name.data.drop i) else ""
  | none => ""

/-- The recognized rule files of a directory listing:
`f.suffix in (".yaml", ".yml") and f.is_file()`. -/
def yaml_rule_files (entries : List DirEntry) : List DirEntry :=
  entries.filter fun f =>
    (path_suffix f.name == ".yaml" || path_suffix f.name == ".yml") && f.isFile

/-- `sorted(...)` over paths of one directory: Python's stable sort by the
path string, i.e. code-point lexicographic order on the file names. -/
def sorted_by_name (entries : List DirEntry) : List DirEntry :=
  List.insertionSort (fun a b => a.name ≤ b.name) entries

/-- `_load_rules_from_directory` over the directory listing: filter to
recognized rule files, sort by file name, load each file and concatenate. -/
def load_rules_from_directory (entries : List DirEntry) :
    Except PyErr (List MappingRule) := do
  let yaml_files := sorted_by_name (yaml_rule_files entries)
  let lists ← yaml_files.mapM fun f => load_rules_from_file f.doc
  return lists.flatten

/-- `a.name ≤ b.name` on directory entries is a total order relation. -/
instance : IsTotal DirEntry (fun a b => a.name ≤ b.name) :=
  ⟨fun a b => le_total a.name b.name⟩

instance : IsTrans DirEntry (fun a b => a.name ≤ b.name) :=
  ⟨fun _ _ _ h1 h2 => le_trans h1 h2⟩

/-- A directory listing holding two recognized rule files (out of order), an
unrecognized extension and a non-file. -/
def dir_c9 : List DirEntry :=
  [⟨"b.yaml", true, .nil⟩, ⟨"a.yml", true, .nil⟩, ⟨"c.txt", true, .nil⟩,
   ⟨"d.yaml", false, .nil⟩]


/-!  ## Concrete instances used to exercise the definitions -/

/-- A non-standard SNOMED concept used to exercise relationship loading. -/
def concept_c1 : Concept :=
  ⟨11, "test concept", "Condition", "SNOMED", "Clinical Finding", "", "123"⟩

/-- A loader state holding `concept_c1` and no relationships yet. -/
def vl_c1 : VocabLoader :=
  ⟨[(concept_key "SNOMED" "123", concept_c1)], [(11, concept_c1)], []⟩

/-- Two live "Maps to" rows for `concept_c1` plus one invalidated row. -/
def rows_c1 : List (List String) :=
  [["11", "99", "Maps to", "20200101", "20991231", ""],
   ["11", "100", "Maps to", "20200101", "20991231", ""],
   ["11", "101", "Maps to", "20200101", "20991231", "D"]]

/-- A non-standard concept whose id 21 maps to the standard ids 77 and 88. -/
def concept_c3 : Concept :=
  ⟨21, "source concept", "Condition", "SNOMED", "Clinical Finding", "", "44054006"⟩

def vl_c3 : VocabLoader :=
  ⟨[(concept_key "SNOMED" "44054006", concept_c3)], [(21, concept_c3)], [(21, [77, 88])]⟩

def vocab_c3 : VocabularyMapper := ⟨some vl_c3⟩

/-- An includable entry carrying a SNOMED code. -/
def entry_c3 : EntryNode :=
  ⟨"EVN", some "completed", fun expr =>
    if expr = "code/@code" then .ok [.str "44054006"]
    else if expr = "code/@codeSystem" then .ok [.str "SNOMED"]
    else .ok []⟩

/-- A condition rule whose only field is the vocabulary lookup. -/
def rule_c3 : MappingRule :=
  { name := "problem_rule",
    target := ⟨"condition_occurrence", 32817⟩,
    fields := [{ target := "condition_concept_id", xpath := "code/@code",
                 vocab_xpath := "code/@codeSystem", transform := "vocab" }] }

/-- `rule_c3` plus a domain condition that fails (concept 77 is not indexed,
so its domain is the empty string). -/
def rule_c4 : MappingRule :=
  { rule_c3 with
    name := "routed_rule",
    source := { conditions := [⟨"domain_equals", "", "Condition"⟩] } }

/-- A rule with no vocabulary field. -/
def rule_c6 : MappingRule :=
  { name := "plain_rule",
    target := ⟨"observation", 32817⟩,
    fields := [{ target := "observation_source_value", xpath := "code/@displayName",
                 transform := "string" }] }

def entry_c6 : EntryNode :=
  ⟨"", none, fun expr => if expr = "code/@displayName" then .ok [.str "Test"] else .ok []⟩

/-- An entry whose XPath evaluator always raises, as `lxml` does on an invalid
expression. -/
def entry_c7 : EntryNode :=
  ⟨"", none, fun _ => .error (.xpathError "Invalid expression")⟩

/-- A rule whose only field mapping targets the `person_id` column with the
vocabulary transform. -/
def rule_c10 : MappingRule :=
  { name := "overwrite_rule",
    target := ⟨"condition_occurrence", 32817⟩,
    fields := [{ target := "person_id", xpath := "code/@code", transform := "vocab" }] }

def entry_c10 : EntryNode :=
  ⟨"", none, fun expr => if expr = "code/@code" then .ok [.str "X99"] else .ok []⟩

/-- The record produced by `rule_c6` on `entry_c6` for record id 42. -/
def c10_record : OmopRecord :=
  [("observation_id", .vInt 42), ("person_id", .vInt 7),
   ("observation_type_concept_id", .vInt 32817),
   ("observation_source_value", .vStr "Test"),
   ("mapping_rule", .vStr "RuleMapper:plain_rule")]


/-!  ## Helper lemmas -/

theorem list_lookup_mem {α β : Type} [BEq α] [LawfulBEq α] :
    ∀ {l : List (α × β)} {k : α} {v : β}, l.lookup k = some v → (k, v) ∈ l := by
  intro l k v h
  induction l with
  | nil => simp [List.lookup] at h
  | cons p rest ih =>
    obtain ⟨a, b⟩ := p
    rw [List.lookup] at h
    cases hk : (k == a) <;> rw [hk] at h
    · exact List.mem_cons_of_mem _ (ih h)
    · have h2 : some b = some v := h
      cases h2
      have hkk : k = a := eq_of_beq hk
      subst hkk
      exact List.mem_cons_self _ _

theorem list_lookup_eq_none {α β : Type} [BEq α] [LawfulBEq α] :
    ∀ {l : List (α × β)} {k : α}, k ∉ l.map Prod.fst → l.lookup k = none := by
  intro l k h
  induction l with
  | nil => rfl
  | cons p rest ih =>
    obtain ⟨a, b⟩ := p
    rw [List.lookup]
    cases hk : (k == a)
    · exact ih (fun hm => h (List.mem_cons_of_mem _ hm))
    · exact absurd (show k ∈ List.map Prod.fst ((a, b) :: rest) by
        simp [eq_of_beq hk]) h

/-- `generate_id`'s streaming buffer equals the flattened per-part byte lists. -/
theorem generate_id_buf_eq (l : List String) :
    ∀ acc : List Nat,
      l.foldl (fun acc v => acc ++ utf8_bytes v ++ [0]) acc =
        acc ++ (l.map (fun v => utf8_bytes v ++ [0])).flatten := by
  induction l with
  | nil => intro acc; simp
  | cons x xs ih =>
    intro acc
    rw [List.foldl_cons, ih]
    simp [List.append_assoc]

/-!  ## Claims -/

/-- C2: for every ordered tuple of string parts, `generate_id` equals the
reference definition (SHA-256 over the concatenation of each part's UTF-8
bytes each followed by a `0x00` separator, first 8 digest bytes big-endian,
reinterpreted as signed 64-bit, absolute value); and identical ordered inputs
yield identical outputs. -/
theorem claim_C2 (values : List String) :
    generate_id values = spec_generate_id values ∧
      ∀ ws, ws = values → generate_id ws = generate_id values := by
  refine ⟨?_, fun ws h => by rw [h]⟩
  unfold generate_id spec_generate_id
  rw [generate_id_buf_eq]
  simp

theorem claim_C2_witness :
    generate_id ["person", "12345", "ccda"] = spec_generate_id ["person", "12345", "ccda"] ∧
      generate_id ["person", "12345", "ccda"] = generate_id ["person", "12345", "ccda"] :=
  ⟨(claim_C2 ["person", "12345", "ccda"]).1,
   (claim_C2 ["person", "12345", "ccda"]).2 ["person", "12345", "ccda"] rfl⟩

/-- Every value of the OID table is a fixed point of the resolver. -/
theorem vocab_table_values_fixed :
    ∀ p ∈ VOCAB_OID_TABLE, oid_to_vocabulary_id p.2 = p.2 := by decide

/-- C8: `oid_to_vocabulary_id` is total and reproduces the closed identifier
table exactly; identifiers outside the table resolve to the empty string;
resolution is idempotent; and the `ICD-10-CM`/`ICD10`/`ICD10CM` punctuation
variants (and the ICD-10-CM OID) resolve identically. -/
theorem claim_C8 :
    (∀ oid, oid_to_vocabulary_id (oid_to_vocabulary_id oid) = oid_to_vocabulary_id oid) ∧
      (∀ p ∈ VOCAB_OID_TABLE, oid_to_vocabulary_id p.1 = p.2) ∧
      (∀ oid, oid ∉ VOCAB_OID_TABLE.map Prod.fst → oid_to_vocabulary_id oid = "") ∧
      oid_to_vocabulary_id "ICD-10-CM" = oid_to_vocabulary_id "ICD10" ∧
      oid_to_vocabulary_id "ICD10" = oid_to_vocabulary_id "ICD10CM" ∧
      oid_to_vocabulary_id "2.16.840.1.113883.6.90" = oid_to_vocabulary_id "ICD10CM" := by
  refine ⟨?_, by decide, ?_, by decide, by decide, by decide⟩
  · intro oid
    unfold oid_to_vocabulary_id
    cases h : VOCAB_OID_TABLE.lookup oid with
    | none => decide
    | some v =>
      have hv := vocab_table_values_fixed (oid, v) (list_lookup_mem h)
      simpa [oid_to_vocabulary_id] using hv
  · intro oid h
    show (VOCAB_OID_TABLE.lookup oid).getD "" = ""
    simp [list_lookup_eq_none h]

theorem claim_C8_witness :
    oid_to_vocabulary_id "NOT-A-KNOWN-SYSTEM" = "" ∧
      oid_to_vocabulary_id "SNOMED CT" = "SNOMED" :=
  ⟨claim_C8.2.2.1 "NOT-A-KNOWN-SYSTEM" (by decide),
   claim_C8.2.1 ("SNOMED CT", "SNOMED") (by decide)⟩


theorem lookup_cons_eq {α β : Type} [BEq α] [LawfulBEq α] [DecidableEq α] (a : α) (b : β)
    (l : List (α × β)) (k : α) :
    List.lookup k ((a, b) :: l) = if k = a then some b else List.lookup k l := by
  rw [List.lookup]
  by_cases h : k = a
  · simp [h]
  · rw [show (k == a) = false from beq_eq_false_iff_ne.mpr h, if_neg h]

theorem dict_append_lookup (k t : Int) :
    ∀ (m : List (Int × List Int)) (s : Int),
      ((dict_append m k t).lookup s).getD [] =
        if s = k then ((m.lookup s).getD []) ++ [t] else (m.lookup s).getD [] := by
  intro m
  induction m with
  | nil =>
    intro s
    unfold dict_append
    rw [lookup_cons_eq]
    by_cases hs : s = k <;> simp [hs, List.lookup]
  | cons p rest ih =>
    obtain ⟨k0, v⟩ := p
    intro s
    unfold dict_append
    by_cases hk0 : k0 = k
    · subst hk0
      rw [if_pos rfl, lookup_cons_eq, lookup_cons_eq]
      by_cases hs : s = k0 <;> simp [hs]
    · rw [if_neg hk0, lookup_cons_eq, lookup_cons_eq]
      by_cases hs : s = k0
      · subst hs
        have hns : ¬ s = k := fun h => hk0 h
        simp [hns]
      · simp only [if_neg hs]
        exact ih s

theorem rel_row_step_concept_by_id (vl : VocabLoader) (row : List String) :
    (rel_row_step vl row).concept_by_id = vl.concept_by_id := by
  unfold rel_row_step
  repeat' split
  all_goals rfl

theorem rel_row_step_concept_index (vl : VocabLoader) (row : List String) :
    (rel_row_step vl row).concept_index = vl.concept_index := by
  unfold rel_row_step
  repeat' split
  all_goals rfl

/-- One relationship row appends exactly its live contribution (if any) to the
edge list of each source concept. -/
theorem rel_row_step_maps_to (vl : VocabLoader) (row : List String) (s : Int) :
    (((rel_row_step vl row).maps_to.lookup s).getD []) =
      ((vl.maps_to.lookup s).getD []) ++ (live_row_target vl s row).toList := by
  unfold rel_row_step live_row_target
  repeat' split
  all_goals try simp_all [dict_append_lookup]
  all_goals try omega
  rename_i hnot hand
  obtain ⟨hse, hex⟩ := hand
  subst hse
  obtain ⟨x, hx⟩ := hex
  exact hnot x hx

theorem live_targets_step_invariant (vl : VocabLoader) (row : List String)
    (rows : List (List String)) (s : Int) :
    live_maps_to_targets (rel_row_step vl row) rows s = live_maps_to_targets vl rows s := by
  unfold live_maps_to_targets live_row_target
  simp only [rel_row_step_concept_by_id]

/-- The relationship load appends exactly the live "Maps to" targets of the
processed rows, in row order, to each source concept's existing edge list. -/
theorem load_rel_maps_to (rows : List (List String)) :
    ∀ (vl : VocabLoader) (s : Int),
      (((vl.load_concept_relationships rows).maps_to.lookup s).getD []) =
        ((vl.maps_to.lookup s).getD []) ++ live_maps_to_targets vl rows s := by
  induction rows with
  | nil =>
    intro vl s
    simp [VocabLoader.load_concept_relationships, live_maps_to_targets]
  | cons row rest ih =>
    intro vl s
    show (((rel_row_step vl row).load_concept_relationships rest).maps_to.lookup s).getD [] = _
    rw [ih, live_targets_step_invariant, rel_row_step_maps_to]
    unfold live_maps_to_targets
    rw [List.filterMap_cons]
    cases h : live_row_target vl s row <;> simp [h, List.append_assoc]

/-- C1: after loading relationships into a fresh edge table, a missing
`(vocabulary, code)` resolves to the empty list; an indexed concept resolves
to its own id when flagged standard, else to its live "Maps to" targets in
load order when any exist, else to its own id — never the empty list when the
concept exists. -/
theorem claim_C1 (vl0 : VocabLoader) (rows : List (List String)) (vocab_id code : String)
    (hfresh : vl0.maps_to = []) :
    ((vl0.load_concept_relationships rows).lookup_concept vocab_id code = none →
      (vl0.load_concept_relationships rows).get_standard_concept_ids vocab_id code = []) ∧
    (∀ c, (vl0.load_concept_relationships rows).lookup_concept vocab_id code = some c →
      ((vl0.load_concept_relationships rows).get_standard_concept_ids vocab_id code =
        (if c.standard_concept = "S" then [c.concept_id]
         else if live_maps_to_targets vl0 rows c.concept_id ≠ [] then
           live_maps_to_targets vl0 rows c.concept_id
         else [c.concept_id])) ∧
      (vl0.load_concept_relationships rows).get_standard_concept_ids vocab_id code ≠ []) := by
  constructor
  · intro h
    unfold VocabLoader.get_standard_concept_ids
    rw [h]
  · intro c hc
    have htargets :
        (((vl0.load_concept_relationships rows).maps_to.lookup c.concept_id).getD []) =
          live_maps_to_targets vl0 rows c.concept_id := by
      rw [load_rel_maps_to, hfresh]
      simp [List.lookup]
    constructor
    · unfold VocabLoader.get_standard_concept_ids
      rw [hc]
      by_cases hstd : c.standard_concept = "S"
      · simp [hstd]
      · simp only [if_neg hstd, htargets]
    · unfold VocabLoader.get_standard_concept_ids
      rw [hc]
      by_cases hstd : c.standard_concept = "S"
      · simp [hstd]
      · simp only [if_neg hstd, htargets]
        by_cases hlive : live_maps_to_targets vl0 rows c.concept_id ≠ []
        · simp [hlive]
        · simp [hlive]

theorem claim_C1_witness :
    vl_c1.maps_to = [] ∧
      (vl_c1.load_concept_relationships rows_c1).get_standard_concept_ids "SNOMED" "123" =
        [99, 100] ∧
      (vl_c1.load_concept_relationships rows_c1).get_standard_concept_ids "SNOMED" "123" ≠ [] := by
  have h := (claim_C1 vl_c1 rows_c1 "SNOMED" "123" rfl).2 concept_c1 (by decide)
  exact ⟨rfl, h.1.trans (by decide), h.2⟩

/-- C5: `should_include_entry` fails closed on an absent node, and otherwise
includes exactly the entries whose mood code is absent or `EVN` and whose
status code is absent, empty, `completed` or `active`; consequently an entry
with an `INT` mood or a `cancelled` status yields zero mapped records. -/
theorem claim_C5 :
    should_include_entry none = false ∧
      (∀ e : EntryNode,
        (should_include_entry (some e) = true ↔
          ((e.moodCode = "" ∨ e.moodCode = "EVN") ∧
            (e.statusCode = none ∨ e.statusCode = some "" ∨
              e.statusCode = some "completed" ∨ e.statusCode = some "active")))) ∧
      (∀ (vocab : VocabularyMapper) (rule : MappingRule) (e : EntryNode) (person_id : Int)
          (visit_map : List (String × Int)) (entries_required : Bool),
        (e.moodCode = "INT" ∨ e.statusCode = some "cancelled") →
          map_entry vocab rule e person_id visit_map entries_required = .ok []) := by
  refine ⟨rfl, fun e => ?_, fun vocab rule e person_id visit_map entries_required h => ?_⟩
  · simp only [should_include_entry]
    by_cases hm : e.moodCode ≠ "" ∧ e.moodCode ≠ "EVN"
    · rw [if_pos hm]
      constructor
      · intro hfalse
        exact absurd hfalse (by simp)
      · rintro ⟨h1 | h1, _⟩
        · exact absurd h1 hm.1
        · exact absurd h1 hm.2
    · rw [if_neg hm]
      push_neg at hm
      have hmood : e.moodCode = "" ∨ e.moodCode = "EVN" := by
        by_cases h0 : e.moodCode = ""
        · exact Or.inl h0
        · exact Or.inr (hm h0)
      cases hst : e.statusCode with
      | none =>
        exact ⟨fun _ => ⟨hmood, Or.inl rfl⟩, fun _ => rfl⟩
      | some status =>
        show (if status ≠ "" ∧ status ≠ "completed" ∧ status ≠ "active"
            then false else true) = true ↔ _
        by_cases hs : status ≠ "" ∧ status ≠ "completed" ∧ status ≠ "active"
        · rw [if_pos hs]
          constructor
          · intro hfalse
            exact absurd hfalse (by simp)
          · rintro ⟨_, h2 | h2 | h2 | h2⟩
            · exact Option.noConfusion h2
            · exact absurd (Option.some.inj h2) hs.1
            · exact absurd (Option.some.inj h2) hs.2.1
            · exact absurd (Option.some.inj h2) hs.2.2
        · rw [if_neg hs]
          push_neg at hs
          constructor
          · intro _
            refine ⟨hmood, ?_⟩
            by_cases h1 : status = ""
            · exact Or.inr (Or.inl (by rw [h1]))
            · by_cases h2 : status = "completed"
              · exact Or.inr (Or.inr (Or.inl (by rw [h2])))
              · exact Or.inr (Or.inr (Or.inr (by rw [hs h1 h2])))
          · intro _
            rfl
  · have hexc : should_include_entry (some e) = false := by
      simp only [should_include_entry]
      rcases h with hmood | hstatus
      · rw [if_pos (by rw [hmood]; exact ⟨by decide, by decide⟩)]
      · by_cases hm : e.moodCode ≠ "" ∧ e.moodCode ≠ "EVN"
        · rw [if_pos hm]
        · rw [if_neg hm, hstatus]
          decide
    unfold map_entry
    simp [hexc, pure, Except.pure]

theorem claim_C5_witness :
    (should_include_entry (some ⟨"INT", none, fun _ => .ok []⟩) = true ↔
      ((("INT" : String) = "" ∨ ("INT" : String) = "EVN") ∧
        ((none : Option String) = none ∨ (none : Option String) = some "" ∨
          (none : Option String) = some "completed" ∨
          (none : Option String) = some "active"))) ∧
      map_entry {} {} ⟨"INT", none, fun _ => .ok []⟩ 1 [] true = .ok [] :=
  ⟨claim_C5.2.1 ⟨"INT", none, fun _ => .ok []⟩,
   claim_C5.2.2 {} {} ⟨"INT", none, fun _ => .ok []⟩ 1 [] true (.inl rfl)⟩

/-- C3: for an entry that passes the inclusion filter and the rule's
conditions and whose vocabulary field resolves to the ids `ids`, `map_entry`
materializes one candidate record per resolved concept id in resolution
order, the `i`-th built with primary key `base + i` from the one seed id; a
record whose creation fails (a non-optional field failing) is dropped from the
result individually, leaving the other branches unaffected (`filterMap`). -/
theorem claim_C3 (vocab : VocabularyMapper) (rule : MappingRule) (entry : EntryNode)
    (person_id : Int) (visit_map : List (String × Int)) (entries_required : Bool)
    (ids : List Int) (base : Int)
    (hinc : should_include_entry (some entry) = true)
    (hext : extract_concept_ids vocab rule entry entries_required = .ok ids)
    (hne : ids ≠ [])
    (hcond : rule.source.conditions = [] ∨
      check_conditions vocab rule.source.conditions entry (ids.headD 0) = true)
    (hgen : rule_generate_id rule entry person_id = .ok base) :
    map_entry vocab rule entry person_id visit_map entries_required =
      .ok (ids.enum.filterMap fun p =>
        create_record vocab rule entry person_id (base + (p.1 : Int)) p.2 visit_map
          entries_required) := by
  unfold map_entry
  rcases hcond with hcond | hcond
  · simp [hinc, hext, hne, hcond, hgen, bind, Except.bind, pure, Except.pure]
  · by_cases hc : rule.source.conditions = []
    · simp [hinc, hext, hne, hc, hgen, bind, Except.bind, pure, Except.pure]
    · have hcond2 : check_conditions vocab rule.source.conditions entry
          (ids.head?.getD 0) = true := by simpa using hcond
      simp [hinc, hext, hne, hc, hcond2, hgen, bind, Except.bind, pure, Except.pure]


/-- Witness for C3: a code resolving to the two standard ids 77 and 88
fans out to one candidate record per id, at offsets 0 and 1 from the seed. -/
theorem claim_C3_witness :
    map_entry vocab_c3 rule_c3 entry_c3 7 [] true =
      .ok (([77, 88] : List Int).enum.filterMap fun p =>
        create_record vocab_c3 rule_c3 entry_c3 7
          (generate_id ["condition_occurrence", "7"] + (p.1 : Int)) p.2 [] true) :=
  claim_C3 vocab_c3 rule_c3 entry_c3 7 [] true [77, 88]
    (generate_id ["condition_occurrence", "7"])
    (by rfl) (by rfl) (by decide) (Or.inl rfl) (by rfl)

/-- C4: when a rule has conditions and the vocabulary field resolves to one or
more concept ids, the conditions are evaluated against the first resolved id
only, and their failure drops the whole entry, remaining branches included. -/
theorem claim_C4 (vocab : VocabularyMapper) (rule : MappingRule) (entry : EntryNode)
    (person_id : Int) (visit_map : List (String × Int)) (entries_required : Bool)
    (c : Int) (rest : List Int)
    (hext : extract_concept_ids vocab rule entry entries_required = .ok (c :: rest))
    (hcond : rule.source.conditions ≠ [])
    (hchk : check_conditions vocab rule.source.conditions entry c = false) :
    map_entry vocab rule entry person_id visit_map entries_required = .ok [] := by
  unfold map_entry
  by_cases hinc : should_include_entry (some entry) = true
  · simp [hinc, hext, hcond, hchk, bind, Except.bind, pure, Except.pure]
  · simp [hinc, pure, Except.pure]

/-- Witness for C4: a failing `domain_equals` condition on the first of two
resolved ids yields zero records. -/
theorem claim_C4_witness :
    map_entry vocab_c3 rule_c4 entry_c3 7 [] true = .ok [] :=
  claim_C4 vocab_c3 rule_c4 entry_c3 7 [] true 77 [88]
    (by rfl) (by decide) (by rfl)

/-- C7 (amended): `map_entry` catches per-field extraction and transform
failures during record creation — `_create_record` is total, an optional
field's failure yields absence and a required field's failure aborts only the
current record — but an exception raised while extracting concept ids or while
generating the seed id escapes `map_entry`: an error result can only originate
from `_extract_concept_ids` or `_generate_id`. -/
theorem claim_C7 (vocab : VocabularyMapper) (rule : MappingRule) (entry : EntryNode)
    (person_id : Int) (visit_map : List (String × Int)) (entries_required : Bool) (e : PyErr)
    (herr : map_entry vocab rule entry person_id visit_map entries_required = .error e) :
    extract_concept_ids vocab rule entry entries_required = .error e ∨
      rule_generate_id rule entry person_id = .error e := by
  unfold map_entry at herr
  by_cases hinc : should_include_entry (some entry) = true
  · cases hext : extract_concept_ids vocab rule entry entries_required with
    | error e0 =>
      rw [hext] at herr
      simp [hinc, bind, Except.bind, pure, Except.pure] at herr
      exact Or.inl (by rw [herr])
    | ok ids =>
      right
      rw [hext] at herr
      cases hg : rule_generate_id rule entry person_id with
      | error e1 =>
        rw [hg] at herr
        simp only [hinc, not_true, if_false, bind, Except.bind, pure, Except.pure] at herr
        repeat' split at herr
        all_goals simp_all
      | ok base =>
        rw [hg] at herr
        simp only [hinc, not_true, if_false, bind, Except.bind, pure, Except.pure] at herr
        repeat' split at herr
        all_goals simp_all
  · simp [hinc, pure, Except.pure] at herr

/-- Counterexample for C7 as stated: an XPath evaluation error raised while
resolving the vocabulary field's concept ids propagates out of `map_entry`. -/
theorem claim_C7_counterexample :
    map_entry {} rule_c3 entry_c7 1 [] true = .error (.xpathError "Invalid expression") := by
  rfl

/-- Witness for C7 (amended): at an entry whose XPath evaluator raises, the
escaped error is traced to concept-id extraction. -/
theorem claim_C7_witness :
    extract_concept_ids {} rule_c3 entry_c7 true = .error (.xpathError "Invalid expression") ∨
      rule_generate_id rule_c3 entry_c7 1 = .error (.xpathError "Invalid expression") :=
  claim_C7 {} rule_c3 entry_c7 1 [] true (.xpathError "Invalid expression") (by rfl)

theorem string_append_last (s t : String) (ht : t.data ≠ []) :
    (s ++ t).data.getLast? = t.data.getLast? := by
  have hd : (s ++ t).data = s.data ++ t.data := by cases s; cases t; rfl
  rw [hd, List.getLast?_append_of_ne_nil _ ht]

theorem table_id_ne_mapping_rule (s : String) : s ++ "_id" ≠ "mapping_rule" := by
  intro h
  have h2 := string_append_last s "_id" (by decide)
  rw [h] at h2
  exact absurd h2 (by decide)

theorem type_field_ne_mapping_rule (s : String) : s ++ "_type_concept_id" ≠ "mapping_rule" := by
  intro h
  have h2 := string_append_last s "_type_concept_id" (by decide)
  rw [h] at h2
  exact absurd h2 (by decide)

theorem dict_set_lookup_self (v : Value) (k : String) :
    ∀ m : OmopRecord, (dict_set m k v).lookup k = some v := by
  intro m
  induction m with
  | nil =>
    unfold dict_set
    rw [lookup_cons_eq, if_pos rfl]
  | cons p rest ih =>
    obtain ⟨k0, v0⟩ := p
    unfold dict_set
    by_cases h : k0 = k
    · rw [if_pos h, lookup_cons_eq, if_pos h.symm]
    · rw [if_neg h, lookup_cons_eq, if_neg (fun hh => h hh.symm)]
      exact ih

theorem dict_set_lookup_other (v : Value) (k s : String) (hs : s ≠ k) :
    ∀ m : OmopRecord, (dict_set m k v).lookup s = m.lookup s := by
  intro m
  induction m with
  | nil =>
    unfold dict_set
    rw [lookup_cons_eq, if_neg hs]
  | cons p rest ih =>
    obtain ⟨k0, v0⟩ := p
    unfold dict_set
    by_cases h : k0 = k
    · rw [if_pos h, lookup_cons_eq, lookup_cons_eq]
      subst h
      rw [if_neg hs, if_neg hs]
    · rw [if_neg h, lookup_cons_eq, lookup_cons_eq]
      by_cases h2 : s = k0
      · rw [if_pos h2, if_pos h2]
      · rw [if_neg h2, if_neg h2]
        exact ih

theorem create_record_loop_mapping_rule (vocab : VocabularyMapper) (rule : MappingRule)
    (entry : EntryNode) (concept_id : Int) (visit_map : List (String × Int))
    (entries_required : Bool) :
    ∀ (fields : List FieldMapping) (record r : OmopRecord),
      create_record_loop vocab rule entry concept_id visit_map entries_required
          record fields = some r →
        r.lookup "mapping_rule" = some (.vStr ("RuleMapper:" ++ rule.name)) := by
  intro fields
  induction fields with
  | nil =>
    intro record r h
    unfold create_record_loop at h
    cases h
    exact dict_set_lookup_self _ _ _
  | cons fm rest ih =>
    intro record r h
    unfold create_record_loop at h
    split at h
    · exact ih _ _ h
    · simp only [] at h
      split at h
      · exact absurd h (by simp)
      · exact ih _ _ h
    · simp only [] at h
      split at h
      · exact absurd h (by simp)
      · exact ih _ _ h

theorem create_record_loop_preserved (vocab : VocabularyMapper) (rule : MappingRule)
    (entry : EntryNode) (concept_id : Int) (visit_map : List (String × Int))
    (entries_required : Bool) (k : String) (hk : k ≠ "mapping_rule") :
    ∀ (fields : List FieldMapping) (record r : OmopRecord),
      (∀ fm ∈ fields, fm.target ≠ k) →
      create_record_loop vocab rule entry concept_id visit_map entries_required
          record fields = some r →
        r.lookup k = record.lookup k := by
  intro fields
  induction fields with
  | nil =>
    intro record r _ h
    unfold create_record_loop at h
    cases h
    exact dict_set_lookup_other _ _ _ hk _
  | cons fm rest ih =>
    intro record r hf h
    unfold create_record_loop at h
    split at h
    · have hrec := ih _ _ (fun g hg => hf g (List.mem_cons_of_mem _ hg)) h
      rw [hrec, dict_set_lookup_other]
      exact fun hh => (hf fm (List.mem_cons_self _ _)) hh.symm
    · simp only [] at h
      split at h
      · exact absurd h (by simp)
      · exact ih _ _ (fun g hg => hf g (List.mem_cons_of_mem _ hg)) h
    · simp only [] at h
      split at h
      · exact absurd h (by simp)
      · exact ih _ _ (fun g hg => hf g (List.mem_cons_of_mem _ hg)) h

theorem map_entry_ok_cases (vocab : VocabularyMapper) (rule : MappingRule) (entry : EntryNode)
    (person_id : Int) (visit_map : List (String × Int)) (entries_required : Bool)
    (rs : List OmopRecord)
    (h : map_entry vocab rule entry person_id visit_map entries_required = .ok rs) :
    rs = [] ∨ ∃ (concept_ids : List Int) (base : Int),
      rule_generate_id rule entry person_id = .ok base ∧
        rs = concept_ids.enum.filterMap fun p =>
          create_record vocab rule entry person_id (base + (p.1 : Int)) p.2 visit_map
            entries_required := by
  unfold map_entry at h
  by_cases hinc : should_include_entry (some entry) = true
  · cases hext : extract_concept_ids vocab rule entry entries_required with
    | error e0 =>
      rw [hext] at h
      simp [hinc, bind, Except.bind, pure, Except.pure] at h
    | ok ids =>
      rw [hext] at h
      cases hg : rule_generate_id rule entry person_id with
      | error e1 =>
        rw [hg] at h
        simp only [hinc, not_true, if_false, bind, Except.bind, pure, Except.pure] at h
        repeat' split at h
        all_goals first
          | (cases h; exact Or.inl rfl)
          | (exact absurd h (by simp))
      | ok base =>
        rw [hg] at h
        simp only [hinc, not_true, if_false, bind, Except.bind, pure, Except.pure] at h
        repeat' split at h
        all_goals first
          | (cases h; exact Or.inl rfl)
          | (cases h; exact Or.inr ⟨_, base, rfl, rfl⟩)
  · simp only [hinc, pure, Except.pure] at h
    rw [if_pos (by simp [hinc])] at h
    cases h
    exact Or.inl rfl


/-- C10 (amended): unconditionally, every record built by `_create_record` and
every record `map_entry` returns carries the provenance tag
`mapping_rule = "RuleMapper:" ++ rule.name` (the final dict assignment always
wins, whatever the rule's field targets). Provided additionally that the three
header keys (`<table>_id`, `person_id`, `<table first token>_type_concept_id`)
are pairwise distinct and no field mapping targets one of them, each record
built by `_create_record` binds `<table>_id` to its record id, `person_id` to
the given person id and the type key to the rule's type-concept constant, and
every record of `map_entry` carries those bindings with the record id being
the generated seed plus the branch offset. -/
theorem claim_C10 (vocab : VocabularyMapper) (rule : MappingRule) (entry : EntryNode)
    (person_id : Int) (visit_map : List (String × Int)) (entries_required : Bool) :
    ((∀ (record_id concept_id : Int) (r : OmopRecord),
      create_record vocab rule entry person_id record_id concept_id visit_map
          entries_required = some r →
        r.lookup "mapping_rule" = some (.vStr ("RuleMapper:" ++ rule.name))) ∧
     (∀ (rs : List OmopRecord) (r : OmopRecord),
      map_entry vocab rule entry person_id visit_map entries_required = .ok rs → r ∈ rs →
        r.lookup "mapping_rule" = some (.vStr ("RuleMapper:" ++ rule.name)))) ∧
    ((∀ fm ∈ rule.fields,
      fm.target ≠ rule.target.table ++ "_id" ∧ fm.target ≠ "person_id" ∧
        fm.target ≠ (py_split_on rule.target.table '_').headD "" ++ "_type_concept_id") →
     rule.target.table ++ "_id" ≠ "person_id" →
     (py_split_on rule.target.table '_').headD "" ++ "_type_concept_id" ≠ "person_id" →
     rule.target.table ++ "_id" ≠
       (py_split_on rule.target.table '_').headD "" ++ "_type_concept_id" →
     (∀ (record_id concept_id : Int) (r : OmopRecord),
       create_record vocab rule entry person_id record_id concept_id visit_map
           entries_required = some r →
         r.lookup (rule.target.table ++ "_id") = some (.vInt record_id) ∧
         r.lookup "person_id" = some (.vInt person_id) ∧
         r.lookup ((py_split_on rule.target.table '_').headD "" ++ "_type_concept_id") =
           some (.vInt rule.target.type_concept_id)) ∧
     (∀ (rs : List OmopRecord) (r : OmopRecord),
       map_entry vocab rule entry person_id visit_map entries_required = .ok rs → r ∈ rs →
         r.lookup "person_id" = some (.vInt person_id) ∧
         r.lookup ((py_split_on rule.target.table '_').headD "" ++ "_type_concept_id") =
           some (.vInt rule.target.type_concept_id) ∧
         ∃ (i : Nat) (base : Int),
           rule_generate_id rule entry person_id = .ok base ∧
           r.lookup (rule.target.table ++ "_id") = some (.vInt (base + (i : Int))))) := by
  have hmr : ∀ (record_id concept_id : Int) (r : OmopRecord),
      create_record vocab rule entry person_id record_id concept_id visit_map
          entries_required = some r →
        r.lookup "mapping_rule" = some (.vStr ("RuleMapper:" ++ rule.name)) := by
    intro record_id concept_id r h
    unfold create_record at h
    simp only [] at h
    exact create_record_loop_mapping_rule _ _ _ _ _ _ _ _ _ h
  refine ⟨⟨hmr, ?_⟩, ?_⟩
  · intro rs r hmap hmem
    rcases map_entry_ok_cases vocab rule entry person_id visit_map entries_required rs hmap with
      hnil | ⟨cids, base, hg, hrs⟩
    · rw [hnil] at hmem
      exact absurd hmem (List.not_mem_nil _)
    · rw [hrs] at hmem
      obtain ⟨p, hp, hcr⟩ := List.mem_filterMap.mp hmem
      exact hmr _ _ _ hcr
  · intro hfields hid_person htype_person hid_type
    have hpart1 : ∀ (record_id concept_id : Int) (r : OmopRecord),
        create_record vocab rule entry person_id record_id concept_id visit_map
            entries_required = some r →
          r.lookup (rule.target.table ++ "_id") = some (.vInt record_id) ∧
          r.lookup "person_id" = some (.vInt person_id) ∧
          r.lookup ((py_split_on rule.target.table '_').headD "" ++ "_type_concept_id") =
            some (.vInt rule.target.type_concept_id) := by
      intro record_id concept_id r h
      unfold create_record at h
      simp only [] at h
      refine ⟨?_, ?_, ?_⟩
      · have hpres := create_record_loop_preserved vocab rule entry concept_id visit_map
          entries_required (rule.target.table ++ "_id") (table_id_ne_mapping_rule _)
          rule.fields _ r (fun g hg => (hfields g hg).1) h
        rw [hpres, dict_set_lookup_other _ _ _ hid_type,
          dict_set_lookup_other _ _ _ hid_person]
        exact dict_set_lookup_self _ _ _
      · have hpres := create_record_loop_preserved vocab rule entry concept_id visit_map
          entries_required "person_id" (by decide)
          rule.fields _ r (fun g hg => (hfields g hg).2.1) h
        rw [hpres, dict_set_lookup_other _ _ _ (fun hh => htype_person hh.symm)]
        exact dict_set_lookup_self _ _ _
      · have hpres := create_record_loop_preserved vocab rule entry concept_id visit_map
          entries_required ((py_split_on rule.target.table '_').headD "" ++ "_type_concept_id")
          (type_field_ne_mapping_rule _)
          rule.fields _ r (fun g hg => (hfields g hg).2.2) h
        rw [hpres]
        exact dict_set_lookup_self _ _ _
    refine ⟨hpart1, ?_⟩
    intro rs r hmap hmem
    rcases map_entry_ok_cases vocab rule entry person_id visit_map entries_required rs hmap with
      hnil | ⟨cids, base, hg, hrs⟩
    · rw [hnil] at hmem
      exact absurd hmem (List.not_mem_nil _)
    · rw [hrs] at hmem
      obtain ⟨p, hp, hcr⟩ := List.mem_filterMap.mp hmem
      obtain ⟨h1, h2, h3⟩ := hpart1 _ _ _ hcr
      exact ⟨h2, h3, p.1, base, hg, h1⟩

/-- Counterexample for C10 as stated: a field mapping targeting `person_id`
with the vocabulary transform overwrites the `person_id` binding, so the
returned record binds `person_id` to the resolved concept id 0, not to the
given person id 7. -/
theorem claim_C10_counterexample :
    (map_entry {} rule_c10 entry_c10 7 [] false).map
        (fun rs => rs.map fun r => r.lookup "person_id") =
      .ok [some (Value.vInt 0)] ∧ Value.vInt 0 ≠ Value.vInt 7 :=
  ⟨rfl, by decide⟩

/-- Witness for C10 (amended): at a rule without colliding targets the built
record carries all four bindings, the provenance one obtained from the
hypothesis-free conjunct. -/
theorem claim_C10_witness :
    c10_record.lookup (rule_c6.target.table ++ "_id") = some (Value.vInt 42) ∧
      c10_record.lookup "person_id" = some (Value.vInt 7) ∧
      c10_record.lookup
          ((py_split_on rule_c6.target.table '_').headD "" ++ "_type_concept_id") =
        some (Value.vInt rule_c6.target.type_concept_id) ∧
      c10_record.lookup "mapping_rule" = some (Value.vStr ("RuleMapper:" ++ rule_c6.name)) := by
  have h := claim_C10 {} rule_c6 entry_c6 7 [] true
  obtain ⟨h1, h2, h3⟩ :=
    (h.2 (by decide) (by decide) (by decide) (by decide)).1 42 0 c10_record (by rfl)
  exact ⟨h1, h2, h3, h.1.1 42 0 c10_record (by rfl)⟩

theorem sorted_by_name_sorted (l : List DirEntry) :
    List.Pairwise (fun a b => a.name ≤ b.name) (sorted_by_name l) :=
  List.sorted_insertionSort _ l

theorem sorted_by_name_perm (l : List DirEntry) : (sorted_by_name l).Perm l :=
  List.perm_insertionSort _ l

theorem mapM_load_ok (f : DirEntry → List MappingRule) :
    ∀ l : List DirEntry, (∀ d ∈ l, load_rules_from_file d.doc = .ok (f d)) →
      l.mapM (fun d => load_rules_from_file d.doc) = .ok (l.map f) := by
  intro l
  induction l with
  | nil => intro _; rfl
  | cons d rest ih =>
    intro h
    rw [List.mapM_cons, h d (List.mem_cons_self _ _),
      ih (fun x hx => h x (List.mem_cons_of_mem _ hx))]
    rfl

theorem any_key_eq_false (kvs : List (String × Yaml)) (key : String)
    (h : key ∉ kvs.map Prod.fst) : (kvs.any fun p => p.1 == key) = false := by
  induction kvs with
  | nil => rfl
  | cons p rest ih =>
    rw [List.any_cons]
    have h1 : (p.1 == key) = false :=
      beq_eq_false_iff_ne.mpr (fun hh => h (by simp [hh]))
    rw [h1, Bool.false_or]
    exact ih (fun hm => h (List.mem_cons_of_mem _ hm))

theorem any_str_eq_false (items : List Yaml) (key : String)
    (h : Yaml.str key ∉ items) : items.any (yaml_str_eq key) = false := by
  induction items with
  | nil => rfl
  | cons y rest ih =>
    rw [List.any_cons]
    have h1 : yaml_str_eq key y = false := by
      cases y with
      | str t =>
        unfold yaml_str_eq
        refine beq_eq_false_iff_ne.mpr fun hh => h ?_
        rw [hh]
        exact List.mem_cons_self _ _
      | nil => rfl
      | bool b => rfl
      | int n => rfl
      | seq l => rfl
      | map m => rfl
    rw [h1, Bool.false_or]
    exact ih (fun hm => h (List.mem_cons_of_mem _ hm))

/-- C9 (amended): a directory load processes exactly the `.yaml`/`.yml`
regular files, in lexicographically sorted file-name order (a sorted
permutation of the recognized files), concatenating each file's rules in that
order; a single file whose parsed document is empty (`None`), or is a
mapping, sequence or string without a top-level `name` or `rules` entry,
yields the empty rule list; a scalar document instead raises a `TypeError`
(see the counterexample). -/
theorem claim_C9 :
    (∀ entries : List DirEntry,
      List.Pairwise (fun a b => a.name ≤ b.name) (sorted_by_name (yaml_rule_files entries)) ∧
      (sorted_by_name (yaml_rule_files entries)).Perm (yaml_rule_files entries) ∧
      ∀ f : DirEntry → List MappingRule,
        (∀ d ∈ yaml_rule_files entries, load_rules_from_file d.doc = .ok (f d)) →
          load_rules_from_directory entries =
            .ok ((sorted_by_name (yaml_rule_files entries)).map f).flatten) ∧
    load_rules_from_file .nil = .ok [] ∧
    (∀ kvs : List (String × Yaml),
      "name" ∉ kvs.map Prod.fst → "rules" ∉ kvs.map Prod.fst →
        load_rules_from_file (.map kvs) = .ok []) ∧
    (∀ items : List Yaml, Yaml.str "name" ∉ items → Yaml.str "rules" ∉ items →
      load_rules_from_file (.seq items) = .ok []) ∧
    (∀ s : String, py_in_str "name" s = false → py_in_str "rules" s = false →
      load_rules_from_file (.str s) = .ok []) := by
  refine ⟨fun entries => ⟨sorted_by_name_sorted _, sorted_by_name_perm _, fun f hf => ?_⟩,
    rfl, fun kvs hname hrules => ?_, fun items hname hrules => ?_, fun s hname hrules => ?_⟩
  · simp only [load_rules_from_directory]
    rw [mapM_load_ok f _ (fun d hd =>
      hf d ((sorted_by_name_perm (yaml_rule_files entries)).mem_iff.mp hd))]
    rfl
  · unfold load_rules_from_file
    simp [yaml_contains, any_key_eq_false _ _ hname, any_key_eq_false _ _ hrules,
      bind, Except.bind, pure, Except.pure]
  · unfold load_rules_from_file
    simp [yaml_contains, any_str_eq_false _ _ hname, any_str_eq_false _ _ hrules,
      bind, Except.bind, pure, Except.pure]
  · unfold load_rules_from_file
    simp [yaml_contains, hname, hrules, bind, Except.bind, pure, Except.pure]

/-- Counterexample for C9 as stated: a parsed document that is the integer 5
is neither empty nor has a `name` or `rules` key, yet `_load_rules_from_file`
raises a `TypeError` (from `"name" in data`) instead of returning `[]`. -/
theorem claim_C9_counterexample :
    load_rules_from_file (.int 5) =
      .error (.typeError "argument of type int is not iterable") := by
  rfl


/-- Witness for C9 (amended): a concrete directory listing and a
keyless mapping document. -/
theorem claim_C9_witness :
    List.Pairwise (fun a b => a.name ≤ b.name) (sorted_by_name (yaml_rule_files dir_c9)) ∧
      (sorted_by_name (yaml_rule_files dir_c9)).Perm (yaml_rule_files dir_c9) ∧
      load_rules_from_directory dir_c9 =
        .ok ((sorted_by_name (yaml_rule_files dir_c9)).map
          (fun _ => ([] : List MappingRule))).flatten ∧
      load_rules_from_file (.map [("other_key", .int 1)]) = .ok [] := by
  obtain ⟨hs, hp, hdir⟩ := claim_C9.1 dir_c9
  refine ⟨hs, hp, hdir (fun _ => []) ?_,
    claim_C9.2.2.1 [("other_key", .int 1)] (by decide) (by decide)⟩
  intro d hd
  have hfiles : yaml_rule_files dir_c9 =
      [⟨"b.yaml", true, .nil⟩, ⟨"a.yml", true, .nil⟩] := by rfl
  rw [hfiles] at hd
  simp only [List.mem_cons, List.not_mem_nil, or_false] at hd
  rcases hd with h | h <;> subst h <;> rfl


set_option maxRecDepth 10000 in
/-- FIPS 180-4 test vector: the SHA-256 digest of `"abc"` (bytes 97 98 99),
pinning both the compression algorithm and the derived constant tables. -/
theorem sha256_fips_abc :
    sha256 [97, 98, 99] =
      [186, 120, 22, 191, 143, 1, 207, 234, 65, 65, 64, 222, 93, 174, 34, 35,
       176, 3, 97, 163, 150, 23, 122, 156, 180, 16, 255, 97, 242, 0, 21, 173] := by
  decide

end ccda2omop
